import Mathlib

/-!
# Verification of the agent-sessions caching and query core

This development embeds the core of the `agent_sessions` Python package in
Lean and proves (or refutes) the specified properties against it.

Modelling conventions, used throughout:

* Python `datetime` values are modelled as `Int` (an epoch-style instant).
  `datetime.isoformat` and `parse_timestamp` form a bijection on the values
  the code produces, so a serialized timestamp is modelled by the same `Int`.
* Python `str` is Lean `String`; `str.strip()` is `pyStrip`,
  `str.lower()` is `pyLower`, string comparison is `strLt`/`strLe`, and
  the substring test `a in b` is `strIn` (all defined below so they are
  kernel-reducible).
* `pathlib.Path` values are modelled by their string form; the code only
  ever compares them as strings (`str(path)`) in the parts embedded here.
* Opaque JSON payloads (`arguments`, `output`, `provider_meta`) are
  modelled by their `_safe_json` / `_json_friendly` rendering, an
  `Option String`; `_safe_json` maps `None` to `""` and is the identity on
  the rendered string, exactly as the Python helpers behave on those
  representations.
* Python `set`s are modelled as lists; only membership is observed by the
  embedded code.
* Python dictionaries keyed by strings are modelled as association lists
  with dict-assignment (`listUpsert`) semantics.
-/

/-- Python truthiness of an optional string (`None` and `""` are falsy). -/
def optStrTruthy : Option String → Bool
  | none => false
  | some s => s ≠ ""

/-- Python `a or default` for strings (`""` is falsy). -/
def pyStrOr (s : String) (dflt : String) : String :=
  if s = "" then dflt else s

/-- Python `a or b` on optional strings (first truthy value wins,
otherwise the second operand is returned unchanged). -/
def pyOptOr (a b : Option String) : Option String :=
  if optStrTruthy a then a else b

/-- Substring containment, Python's `needle in hay` on strings. -/
def strIn (needle hay : String) : Bool :=
  decide (needle.toList <:+: hay.toList)

/-- Python `str.strip()` (kernel-reducible implementation). -/
def pyStrip (s : String) : String :=
  ⟨(((s.toList.dropWhile Char.isWhitespace).reverse).dropWhile
      Char.isWhitespace).reverse⟩

/-- Python `str.rstrip()` (kernel-reducible implementation). -/
def pyRStrip (s : String) : String :=
  ⟨((s.toList.reverse).dropWhile Char.isWhitespace).reverse⟩

/-- Python `str.lower()` (kernel-reducible implementation; the code only
lowercases for case-insensitive comparison). -/
def pyLower (s : String) : String :=
  ⟨s.toList.map Char.toLower⟩

/-- Python `str.startswith` (kernel-reducible implementation). -/
def pyStartsWith (s pfx : String) : Bool :=
  pfx.toList.isPrefixOf s.toList

/-- Code-point lexicographic strict order on char lists (Python string
comparison). -/
def charListLt : List Char → List Char → Bool
  | _, [] => false
  | [], _ :: _ => true
  | a :: as, b :: bs =>
    if a.toNat < b.toNat then true
    else if b.toNat < a.toNat then false
    else charListLt as bs

/-- Python `a < b` on strings. -/
def strLt (a b : String) : Bool := charListLt a.toList b.toList

/-- Python `a <= b` on strings. -/
def strLe (a b : String) : Bool := strLt a b || a == b

/-- Models `util.strip_private_use`: drop the private-use code points
`U+E000 .. U+F8FF` (the table is built from `range(0xE000, 0xF900)`). -/
def strip_private_use : Option String → String
  | none => ""
  | some s =>
    if s = "" then ""
    else ⟨s.toList.filter (fun c => decide (c.toNat < 0xE000 ∨ 0xF900 ≤ c.toNat))⟩

/-- Order used for Python sort keys `timestamp.timestamp()` with
`float("-inf")` for missing values: `none` sorts below every instant. -/
def optTsLe : Option Int → Option Int → Bool
  | none, _ => true
  | some _, none => false
  | some a, some b => decide (a ≤ b)

/-- Association-list update with Python dict-assignment semantics: replace
the value at an existing key in place, otherwise append at the end. -/
def listUpsert {κ β : Type} [BEq κ] (k : κ) (v : β) (l : List (κ × β)) :
    List (κ × β) :=
  if l.any (fun p => p.1 == k) then
    l.map (fun p => if p.1 == k then (k, v) else p)
  else
    l ++ [(k, v)]

section StableSort

variable {α : Type}

/-- Stable insertion used to model Python's `sorted`: an incoming element
`x` (earlier in the original list) is placed before the first element it
may precede, so ties keep their original order. -/
def insertLe (le : α → α → Bool) (x : α) : List α → List α
  | [] => [x]
  | y :: ys => if le x y then x :: y :: ys else y :: insertLe le x ys

/-- Stable insertion sort modelling Python's `sorted`. -/
def isort (le : α → α → Bool) : List α → List α
  | [] => []
  | x :: xs => insertLe le x (isort le xs)

end StableSort

/-! ## Domain model (`agent_sessions/model.py`) -/

/-- Models `model.Message`: the legacy single-string representation. -/
structure Message where
  role : String
  content : String
  created_at : Option Int := none
deriving DecidableEq

/-- Models `model.NormalizedPart` (kind is a free string at runtime). -/
structure NormalizedPart where
  kind : String
  text : Option String := none
  language : Option String := none
  tool_name : Option String := none
  arguments : Option String := none
  output : Option String := none
  id : Option String := none
deriving DecidableEq

/-- Models `model.NormalizedMessage`. -/
structure NormalizedMessage where
  id : String
  role : String
  parts : List NormalizedPart
  name : Option String := none
  timestamp : Option Int := none
  latency_ms : Option Int := none
  provider_meta : Option String := none
deriving DecidableEq

/-- Models `model.NormalizationDiagnostics`. -/
structure NormalizationDiagnostics where
  total_events : Nat := 0
  parsed_events : Nat := 0
  skipped_events : Nat := 0
  warnings : List String := []
deriving DecidableEq

/-- Models `model.SessionRecord`.  The derived `search_index` attribute is
excluded from comparison in the source (`compare=False`) and is therefore
not a field here; it is recomputed by `SessionSearchIndex.from_session`. -/
structure SessionRecord where
  provider : String
  session_id : String
  source_path : String
  started_at : Option Int := none
  updated_at : Option Int := none
  working_dir : Option String := none
  model : Option String := none
  messages : List Message := []
  normalized_messages : List NormalizedMessage := []
  normalization_diagnostics : Option NormalizationDiagnostics := none
deriving DecidableEq

/-! ## Legacy rendering (`normalize.render_legacy_content`) -/

/-- Models `normalize._safe_json` on the modelled (pre-rendered) opaque values:
`None` becomes `""`, a rendered value passes through unchanged. -/
def safe_json : Option String → String
  | none => ""
  | some s => s

/-- Models `normalize.render_legacy_content`. -/
def render_legacy_content (m : NormalizedMessage) : String :=
  let chunks := m.parts.map fun p =>
    if p.kind = "text" ∧ optStrTruthy p.text then p.text.getD ""
    else if p.kind = "code" ∧ optStrTruthy p.text then
      let lang := match p.language with | none => "" | some l => l
      let fence := pyRStrip ("```" ++ lang)
      fence ++ "\n" ++ p.text.getD "" ++ "\n```"
    else if p.kind = "tool-call" then
      pyStrip ("[tool-call] " ++ pyStrOr (p.tool_name.getD "") "tool" ++ " "
        ++ safe_json p.arguments)
    else if p.kind = "tool-result" then
      pyStrip ("[tool-result] " ++ pyStrOr (p.tool_name.getD "") "tool" ++ " "
        ++ safe_json p.output)
    else ""
  pyStrip (String.intercalate "\n" (chunks.filter (fun c => c != "")))

/-- Models `Path.stem` for the modelled string paths: final component without its
last suffix. -/
def pathStem (p : String) : String :=
  let name := (List.splitOn '/' p.toList).getLastD []
  let pieces := List.splitOn '.' name
  if pieces.length ≤ 1 then ⟨name⟩
  else if pieces.headD [] = [] ∧ pieces.length = 2 then ⟨name⟩
  else ⟨List.intercalate ['.'] pieces.dropLast⟩

/-! ## Ingestion builder (`providers/ingest.py`) -/

/-- Dedup key `(role, content, iso_timestamp_or_null)`; the timestamp
component keeps the `Int` instant since `isoformat` is injective. -/
abbrev MsgKey := String × String × Option Int

/-- Models `ingest.SessionBuilder` state.  `msgs` models `_messages`
(order-index/message pairs), `msg_keys` models the `_message_keys` set,
and similarly for the normalized variants. -/
structure SessionBuilder where
  provider : String
  source_path : String
  session_id : Option String := none
  working_dir : Option String := none
  model : Option String := none
  started_at : Option Int := none
  updated_at : Option Int := none
  normalization_diagnostics : Option NormalizationDiagnostics := none
  msgs : List (Nat × Message) := []
  msg_keys : List MsgKey := []
  norm_msgs : List (Nat × NormalizedMessage) := []
  norm_keys : List MsgKey := []
  model_priority : Int := -1

namespace SessionBuilder

/-- Models `SessionBuilder.set_session_id`. -/
def set_session_id (b : SessionBuilder) (value : Option String) : SessionBuilder :=
  match value with
  | none => b
  | some v =>
    let candidate := pyStrip v
    if candidate ≠ "" then { b with session_id := some candidate } else b

/-- Models `SessionBuilder.record_timestamp` (non-`datetime` arguments are
ignored, modelled by `none`); the two Python `if` statements assign
`started_at` and `updated_at` independently. -/
def record_timestamp (b : SessionBuilder) : Option Int → SessionBuilder
  | none => b
  | some t =>
    let new_started :=
      match b.started_at with
      | none => some t
      | some s => if t < s then some t else some s
    let new_updated :=
      match b.updated_at with
      | none => some t
      | some u => if u < t then some t else some u
    { b with started_at := new_started, updated_at := new_updated }

/-- Models `SessionBuilder.add_normalized_message`. -/
def add_normalized_message (b : SessionBuilder) (m : NormalizedMessage)
    (dedupe_key : Option MsgKey) : SessionBuilder × Option NormalizedMessage :=
  if m.parts = [] ∧ m.role = "" then (b, none)
  else
    let content_key := render_legacy_content m
    let key := dedupe_key.getD (m.role, content_key, m.timestamp)
    if key ∈ b.norm_keys then (b, none)
    else
      let b := { b with norm_keys := key :: b.norm_keys }
      let b := { b with norm_msgs := b.norm_msgs ++ [(b.norm_msgs.length, m)] }
      let b := match m.timestamp with
        | some t => b.record_timestamp (some t)
        | none => b
      (b, some m)

/-- Models `SessionBuilder._merge_diagnostics`. -/
def merge_diagnostics (b : SessionBuilder) (incoming : NormalizationDiagnostics) :
    SessionBuilder :=
  let diag := b.normalization_diagnostics.getD {}
  { b with
    normalization_diagnostics := some
      { total_events := diag.total_events + incoming.total_events
        parsed_events := diag.parsed_events + incoming.parsed_events
        skipped_events := diag.skipped_events + incoming.skipped_events
        warnings :=
          if incoming.warnings = [] then diag.warnings
          else diag.warnings ++ incoming.warnings } }

/-- Lexicographic `(timestamp_key, order_index)` comparison used by
`build`'s two `sorted` calls (missing timestamps are `-inf`). -/
def pairLe {α : Type} (key : α → Option Int) (x y : Nat × α) : Bool :=
  match key x.2, key y.2 with
  | none, none => decide (x.1 ≤ y.1)
  | none, some _ => true
  | some _, none => false
  | some a, some b => if a = b then decide (x.1 ≤ y.1) else decide (a < b)

/-- Models `SessionBuilder.build`. -/
def build (b : SessionBuilder) (session_id : Option String) :
    Option SessionRecord :=
  let final0 := pyOptOr session_id b.session_id
  let final_session_id :=
    if optStrTruthy final0 then final0.getD "" else pathStem b.source_path
  if b.msgs = [] ∧ b.started_at = none ∧ b.updated_at = none ∧
      optStrTruthy b.model = false then
    none
  else
    let sorted_normalized := isort (pairLe (fun n => n.timestamp)) b.norm_msgs
    let normalized_messages := sorted_normalized.map Prod.snd
    let sorted_messages := isort (pairLe (fun m => m.created_at)) b.msgs
    let messages := sorted_messages.map Prod.snd
    let messages :=
      if messages = [] ∧ normalized_messages ≠ [] then
        normalized_messages.map fun n =>
          ⟨n.role, render_legacy_content n, n.timestamp⟩
      else messages
    some
      { provider := b.provider
        session_id := final_session_id
        source_path := b.source_path
        started_at := b.started_at
        updated_at := b.updated_at
        working_dir := b.working_dir
        model := b.model
        messages := messages
        normalized_messages := normalized_messages
        normalization_diagnostics := b.normalization_diagnostics }

end SessionBuilder

/-- Models `normalize._ROLE_ALIASES` (insertion order of the dict). -/
def ROLE_ALIASES : List (String × String) :=
  [("system", "system"), ("developer", "system"), ("user", "user"),
   ("human", "user"), ("assistant", "assistant"), ("ai", "assistant"),
   ("model", "assistant"), ("gemini", "assistant"), ("tool", "tool"),
   ("function", "tool")]

/-- Models `_ROLE_ALIASES.get(key)`. -/
def role_alias (s : String) : Option String :=
  (ROLE_ALIASES.find? (fun p => p.1 == s)).map Prod.snd

/-- Models `normalize._resolve_role`.  The source guards the alias hit with
`base in {"system","user","assistant","tool"}`; every value of the alias
table is in that set, so the guard is equivalent to `base is not None` and
is modelled by the `match`.  Both remaining source branches return
`"assistant"` (`tool-call` present, and the final default). -/
def resolve_role (role : Option String) (parts : List NormalizedPart) : String :=
  let lowered := pyLower (pyStrip (role.getD ""))
  let base := role_alias lowered
  let has_tool_result := parts.any (fun p => p.kind == "tool-result")
  let has_tool_call := parts.any (fun p => p.kind == "tool-call")
  if has_tool_result then "tool"
  else
    match base with
    | some v => v
    | none => if has_tool_call then "assistant" else "assistant"

/-- Single-quote character, kept out of string literals. -/
def squote : String := String.singleton (Char.ofNat 39)

/-- The f-string `normalize_message` appends on a role override. -/
def role_override_warning (provider extracted_role : String) : String :=
  provider ++ ": role override " ++ squote ++ extracted_role ++ squote
    ++ " -> " ++ squote ++ "tool" ++ squote

/-- Models the warning block of `Normalizer.normalize_message`
(normalize.py lines 85-94): the list of warnings appended to
`diagnostics.warnings` for the given payload role and compacted parts. -/
def role_override_warnings (provider : String) (extracted_role : Option String)
    (parts : List NormalizedPart) : List String :=
  let normalized_role := resolve_role extracted_role parts
  match extracted_role with
  | none => []
  | some r =>
    if r ≠ "" ∧ (pyLower (pyStrip r) = "user" ∨ pyLower (pyStrip r) = "human")
        then
      if normalized_role = "tool" ∧ (role_alias (pyLower (pyStrip r))).isNone
          then
        [role_override_warning provider r]
      else if normalized_role = "tool" then
        [role_override_warning provider r]
      else []
    else []

/-! ## Search index (`model.py`) and query primitives (`query.py`) -/

/-- Models `model._normalize_for_search`. -/
def normalize_for_search : Option String → String
  | none => ""
  | some s => if s = "" then "" else pyLower (strip_private_use (some s))

/-- Models `model._flatten_normalized_message`. -/
def flatten_normalized_message (m : NormalizedMessage) : String :=
  let chunks := m.parts.map fun p =>
    if (p.kind = "text" ∨ p.kind = "code") ∧ optStrTruthy p.text then
      p.text.getD ""
    else if p.kind = "tool-call" then
      pyStrip ("[tool-call] " ++ pyStrOr (p.tool_name.getD "") "tool" ++ " "
        ++ safe_json p.arguments)
    else if p.kind = "tool-result" then
      pyStrip ("[tool-result] " ++ pyStrOr (p.tool_name.getD "") "tool" ++ " "
        ++ safe_json p.output)
    else ""
  let value := String.intercalate "\n" (chunks.filter (fun c => c != ""))
  if value.length > 4000 then value.take 4000 ++ "…" else value

/-- Models `model.SessionSearchIndex`. -/
structure SessionSearchIndex where
  provider : String
  session_id : String
  model : String
  working_dir : String
  messages : List String
deriving DecidableEq

/-- Models `SessionSearchIndex.from_session`. -/
def SessionSearchIndex.from_session (s : SessionRecord) : SessionSearchIndex :=
  let message_blobs :=
    if s.normalized_messages ≠ [] then
      s.normalized_messages.filterMap fun m =>
        let blob := normalize_for_search (some (flatten_normalized_message m))
        if blob = "" then none else some blob
    else
      s.messages.filterMap fun m =>
        let blob := normalize_for_search (some m.content)
        if blob = "" then none else some blob
  { provider := normalize_for_search (some s.provider)
    session_id := normalize_for_search (some s.session_id)
    model := normalize_for_search s.model
    working_dir := normalize_for_search s.working_dir
    messages := message_blobs }

/-- Models `SessionSearchIndex.matches`. -/
def SessionSearchIndex.matches (idx : SessionSearchIndex)
    (lowered_term : String) : Bool :=
  if lowered_term = "" then true
  else if [idx.provider, idx.session_id, idx.model, idx.working_dir].any
      (fun v => v != "" && strIn lowered_term v) then true
  else idx.messages.any (fun m => strIn lowered_term m)

/-- Models `query.SUPPORTED_ORDERS`. -/
def SUPPORTED_ORDERS : List String := ["updated_at", "started_at", "messages"]

/-- Models `query.SessionQuery`.  `page` and `page_size` are modelled as
`Nat`: the source normalizes every non-positive Python int exactly like
`0`, and only normalized values flow into pagination. -/
structure SessionQuery where
  providers : List String := []
  search : String := ""
  model_exact : List String := []
  model_prefixes : List String := []
  model_provider : Option String := none
  order : String := "updated_at"
  page : Nat := 1
  page_size : Nat := 10
  include_working_dirs : List String := []
  exclude_working_dirs : List String := []
deriving DecidableEq

/-- Models `query._normalize_model_value`. -/
def normalize_model_value (value : Option String) : String :=
  match value with
  | none => ""
  | some v => if v = "" then "" else pyLower (pyStrip (strip_private_use (some v)))

/-- Models `query._normalize_model_values`. -/
def normalize_model_values (values : List String) : List String :=
  values.filterMap fun v =>
    let cleaned := normalize_model_value (some v)
    if cleaned = "" then none else some cleaned

/-- Models the working-dir set comprehensions in `SessionQuery.normalized`. -/
def normalize_dir_values (values : List String) : List String :=
  values.filterMap fun v =>
    if v = "" then none
    else
      let cleaned := pyStrip (strip_private_use (some v))
      if cleaned = "" then none else some cleaned

/-- Models `SessionQuery.normalized`. -/
def SessionQuery.normalized (q : SessionQuery) (max_page_size : Option Nat) :
    SessionQuery :=
  let providers := q.providers.filter (fun p => p != "")
  let search := pyStrip q.search
  let model_exact := normalize_model_values q.model_exact
  let model_prefixes := normalize_model_values q.model_prefixes
  let model_provider :=
    let mp := pyStrip (q.model_provider.getD "")
    if mp = "" then none else some mp
  let order0 := pyStrOr q.order "updated_at"
  let order := if SUPPORTED_ORDERS.contains order0 then order0 else "updated_at"
  let page := if q.page ≠ 0 then q.page else 1
  let page_size0 := if q.page_size ≠ 0 then q.page_size else 10
  let page_size := match max_page_size with
    | some m => min page_size0 m
    | none => page_size0
  let include_dirs := normalize_dir_values q.include_working_dirs
  let exclude_dirs0 := normalize_dir_values q.exclude_working_dirs
  let exclude_dirs := exclude_dirs0.filter (fun d => ¬ include_dirs.contains d)
  { providers := providers
    search := search
    model_exact := model_exact
    model_prefixes := model_prefixes
    model_provider := model_provider
    order := order
    page := page
    page_size := page_size
    include_working_dirs := include_dirs
    exclude_working_dirs := exclude_dirs }

/-- Models `query.matches_provider`. -/
def matches_provider (s : SessionRecord) (providers : List String) : Bool :=
  if providers = [] then true else providers.contains s.provider

/-- Models `query.matches_working_dir`. -/
def matches_working_dir (s : SessionRecord)
    (include_dirs exclude_dirs : List String) : Bool :=
  if include_dirs = [] ∧ exclude_dirs = [] then true
  else
    let normalized := match s.working_dir with
      | some w => if w ≠ "" then pyStrip (strip_private_use (some w)) else ""
      | none => ""
    if include_dirs ≠ [] ∧ (normalized = "" ∨ ¬ include_dirs.contains normalized)
      then false
    else if exclude_dirs ≠ [] ∧ normalized ≠ "" ∧ exclude_dirs.contains normalized
      then false
    else true

/-- Models `query.matches_search`.  The source fetches the record's
attached `search_index` and recomputes it when absent; the attached index
is always `SessionSearchIndex.from_session` of the record (set eagerly by
`SessionRecord.__post_init__`), so the lookup is modelled by recomputing. -/
def matches_search (s : SessionRecord) (term : String) : Bool :=
  if term = "" then true
  else (SessionSearchIndex.from_session s).matches (pyLower term)

/-- Models `query.matches_model`. -/
def matches_model (s : SessionRecord) (model_exact model_prefixes : List String)
    (model_provider : Option String) : Bool :=
  if optStrTruthy model_provider ∧ s.provider ≠ model_provider.getD "" then false
  else if model_exact = [] ∧ model_prefixes = [] then true
  else
    let model := normalize_model_value s.model
    if model = "" then false
    else if model_exact.contains model then true
    else model_prefixes.any (fun p => pyStartsWith model p)

/-- Models `query.sort_sessions` (stable, descending; missing timestamps
sort last, i.e. their key is `-inf`). -/
def sort_sessions (sessions : List SessionRecord) (order : String) :
    List SessionRecord :=
  if order = "started_at" then
    isort (fun a b => optTsLe b.started_at a.started_at) sessions
  else if order = "messages" then
    isort (fun a b => decide (b.messages.length ≤ a.messages.length)) sessions
  else
    isort (fun a b => optTsLe b.updated_at a.updated_at) sessions

/-- Models `query.apply_filters`. -/
def apply_filters (sessions : List SessionRecord) (query : SessionQuery) :
    List SessionRecord :=
  sessions.filter fun s =>
    matches_provider s query.providers &&
    matches_search s query.search &&
    matches_model s query.model_exact query.model_prefixes query.model_provider &&
    matches_working_dir s query.include_working_dirs query.exclude_working_dirs

/-- Models `query.SessionPage`. -/
structure SessionPage where
  items : List SessionRecord
  total : Nat
  page : Nat
  page_size : Nat
  total_pages : Nat
  has_next : Bool
  has_previous : Bool
deriving DecidableEq

/-- Models the body of `SessionService.list_sessions` applied to the
snapshot list returned by `self._all_sessions()`. -/
def list_sessions_snapshot (sessions : List SessionRecord)
    (query : SessionQuery) (max_page_size : Option Nat) : SessionPage :=
  let normalized := query.normalized max_page_size
  let filtered := apply_filters sessions normalized
  let ordered := sort_sessions filtered normalized.order
  let total := ordered.length
  if total = 0 then
    { items := [], total := 0, page := 1, page_size := normalized.page_size
      total_pages := 0, has_next := false, has_previous := false }
  else
    let total_pages := (total + normalized.page_size - 1) / normalized.page_size
    let page := min normalized.page total_pages
    let start := (page - 1) * normalized.page_size
    let items := (ordered.drop start).take normalized.page_size
    { items := items, total := total, page := page
      page_size := normalized.page_size, total_pages := total_pages
      has_next := decide (page < total_pages)
      has_previous := decide (page > 1) }

/-! ## Serialization (`cache.py`) -/

/-- Serialized form of a legacy message as written by
`serialize_session_record` (`_serialize_datetime` is the identity on the
modelled instants, since real datetimes are always truthy). -/
structure SerializedMessage where
  role : String
  content : String
  created_at : Option Int
deriving DecidableEq

/-- Serialized form of a normalized part. -/
structure SerializedPart where
  kind : String
  text : Option String
  language : Option String
  tool_name : Option String
  arguments : Option String
  output : Option String
  id : Option String
deriving DecidableEq

/-- Serialized form of a normalized message. -/
structure SerializedNormalizedMessage where
  id : String
  role : String
  name : Option String
  timestamp : Option Int
  latency_ms : Option Int
  provider_meta : Option String
  parts : List SerializedPart
deriving DecidableEq

/-- Serialized diagnostics. -/
structure SerializedDiagnostics where
  total_events : Nat
  parsed_events : Nat
  skipped_events : Nat
  warnings : List String
deriving DecidableEq

/-- Serialized form of a whole record (`serialize_session_record`'s dict). -/
structure SerializedSession where
  provider : String
  session_id : String
  source_path : String
  started_at : Option Int
  updated_at : Option Int
  working_dir : Option String
  model : Option String
  messages : List SerializedMessage
  normalized_messages : List SerializedNormalizedMessage
  normalization_diagnostics : Option SerializedDiagnostics
deriving DecidableEq

/-- Models `cache.serialize_session_record`.  `_json_friendly` is the
identity on the modelled (pre-rendered) opaque values. -/
def serialize_session_record (r : SessionRecord) : SerializedSession :=
  { provider := r.provider
    session_id := r.session_id
    source_path := r.source_path
    started_at := r.started_at
    updated_at := r.updated_at
    working_dir := r.working_dir
    model := r.model
    messages := r.messages.map fun m =>
      { role := m.role, content := m.content, created_at := m.created_at }
    normalized_messages := r.normalized_messages.map fun m =>
      { id := m.id, role := m.role, name := m.name, timestamp := m.timestamp
        latency_ms := m.latency_ms, provider_meta := m.provider_meta
        parts := m.parts.map fun p =>
          { kind := p.kind, text := p.text, language := p.language
            tool_name := p.tool_name, arguments := p.arguments
            output := p.output, id := p.id } }
    normalization_diagnostics := r.normalization_diagnostics.map fun d =>
      { total_events := d.total_events, parsed_events := d.parsed_events
        skipped_events := d.skipped_events, warnings := d.warnings } }

/-- Models `cache.deserialize_session_record` on payloads of the shape the
serializer produces.  The `or`-fallbacks of the source are kept:
`str(entry.get("role") or "event")` turns an empty role into `"event"`,
an empty normalized role into `"assistant"`, and an empty part kind into
`"text"`. -/
def deserialize_session_record (p : SerializedSession) : SessionRecord :=
  { provider := pyStrOr p.provider ""
    session_id := pyStrOr p.session_id ""
    source_path := pyStrOr p.source_path ""
    started_at := p.started_at
    updated_at := p.updated_at
    working_dir := p.working_dir
    model := p.model
    messages := p.messages.map fun m =>
      { role := pyStrOr m.role "event", content := pyStrOr m.content ""
        created_at := m.created_at }
    normalized_messages := p.normalized_messages.map fun m =>
      { id := pyStrOr m.id "", role := pyStrOr m.role "assistant"
        name := m.name, timestamp := m.timestamp, latency_ms := m.latency_ms
        provider_meta := m.provider_meta
        parts := m.parts.map fun part =>
          { kind := pyStrOr part.kind "text", text := part.text
            language := part.language, tool_name := part.tool_name
            arguments := part.arguments, output := part.output
            id := part.id } }
    normalization_diagnostics := p.normalization_diagnostics.map fun d =>
      { total_events := d.total_events, parsed_events := d.parsed_events
        skipped_events := d.skipped_events, warnings := d.warnings } }

/-! ## Per-file session cache (`cache.DiskSessionCache`) -/

/-- File-system stat view: maps a path to its `(mtime_ns, size)`
fingerprint, `none` when the path cannot be statted. -/
abbrev Fs := String → Option (Int × Int)

/-- Models `cache.path_fingerprint`. -/
def path_fingerprint (fs : Fs) (path : String) : Option (Int × Int) := fs path

/-- One entry of the per-file cache. -/
structure DiskSessionCacheEntry where
  provider : String
  source_path : String
  mtime_ns : Int
  size : Int
  session : SerializedSession
deriving DecidableEq

/-- Models `cache.DiskSessionCache` state (`_entries` keyed by
`provider + "::" + path`). -/
structure DiskSessionCache where
  enabled : Bool
  cache_dir : String
  entries : List (String × DiskSessionCacheEntry)

/-- Models `DiskSessionCache._entry_key`. -/
def entry_key (provider source_path : String) : String :=
  provider ++ "::" ++ source_path

/-- On-disk payload written by `DiskSessionCache.persist` (the
`updated_at` wall-clock field is ignored by `load` and omitted). -/
structure SessionCachePayload where
  version : Nat
  entries : List DiskSessionCacheEntry

namespace DiskSessionCache

/-- Models `DiskSessionCache.lookup`. -/
def lookup (c : DiskSessionCache) (fs : Fs) (provider path : String) :
    Option SessionRecord :=
  if ¬ c.enabled then none
  else
    match path_fingerprint fs path with
    | none => none
    | some fp =>
      match c.entries.lookup (entry_key provider path) with
      | none => none
      | some entry =>
        if (entry.mtime_ns, entry.size) ≠ fp then none
        else some (deserialize_session_record entry.session)

/-- Models `DiskSessionCache.store`. -/
def store (c : DiskSessionCache) (fs : Fs) (provider path : String)
    (record : SessionRecord) : DiskSessionCache :=
  if ¬ c.enabled then c
  else
    match path_fingerprint fs path with
    | none => c
    | some fp =>
      let e : DiskSessionCacheEntry :=
        { provider := provider, source_path := path
          mtime_ns := fp.1, size := fp.2
          session := serialize_session_record record }
      { c with entries := listUpsert (entry_key provider path) e c.entries }

/-- The payload `DiskSessionCache.persist` serializes
(`list(self._entries.values())`, version-tagged). -/
def persist_payload (c : DiskSessionCache) : SessionCachePayload :=
  { version := 1, entries := c.entries.map Prod.snd }

/-- Models `DiskSessionCache.persist` given the outcome of the atomic
write: on failure the cache is disabled and the in-memory entries stay
usable. -/
def persist (c : DiskSessionCache) (write_ok : Bool) :
    DiskSessionCache × Option SessionCachePayload :=
  if ¬ c.enabled then (c, none)
  else if write_ok then (c, some (persist_payload c))
  else ({ c with enabled := false }, none)

/-- Models `DiskSessionCache.load`; `none` stands for a missing,
unreadable or non-dict payload, which leaves the cache empty. -/
def load (c : DiskSessionCache) (payload : Option SessionCachePayload) :
    DiskSessionCache :=
  if ¬ c.enabled then c
  else
    match payload with
    | none => c
    | some p =>
      if p.version ≠ 1 then c
      else
        let rebuilt := p.entries.foldl
          (fun acc e => listUpsert (entry_key e.provider e.source_path) e acc) []
        { c with entries := rebuilt }

end DiskSessionCache

/-! ## Metadata snapshot cache (`cache.DiskMetadataCache`) -/

/-- On-disk payload of `metadata_snapshot.json` (well-typed shape; the
structurally-invalid cases of `_parse_metadata_snapshot` concern only
payloads no run of the serializer produces). -/
structure MetaPayload where
  version : Nat
  schema_version : Nat
  cache_key : String
  manifest_hash : String
  manifest : List ((String × String) × (Int × Int))
  sessions : List SerializedSession

/-- Models `cache.CachedMetadataSnapshot`. -/
structure CachedMetadataSnapshot where
  cache_key : String
  manifest_hash : String
  manifest : List ((String × String) × (Int × Int))
  sessions : List SessionRecord

/-- Models `cache.MetadataCacheLoadResult` (a frozen `slots` dataclass:
its only attributes are `status`, `snapshot`, `cache_dir`, `cache_path`
and `attempts`; the per-attempt telemetry list is not needed by any
claim and is omitted). -/
structure MetadataCacheLoadResult where
  status : String
  snapshot : Option CachedMetadataSnapshot
  cache_dir : Option String
  cache_path : Option String

/-- Models `cache.MetadataCachePersistResult` (attempt telemetry
omitted). -/
structure MetadataCachePersistResult where
  status : String
  cache_dir : Option String
  cache_path : Option String

/-- Models `cache.DiskMetadataCache` state. -/
structure DiskMetadataCache where
  enabled : Bool
  cache_dir : String
  cache_path : String
  cache_dirs : List String

/-- Path of the snapshot file inside a candidate directory. -/
def metaSnapshotPath (dir : String) : String := dir ++ "/metadata_snapshot.json"

/-- Disk view for the metadata cache: maps a snapshot path to the parsed
payload, `none` for a missing file (`FileNotFoundError` → `miss`). -/
abbrev MetaDisk := String → Option MetaPayload

/-- Models `cache._parse_metadata_snapshot` on well-typed payloads. -/
def parse_metadata_snapshot (payload : MetaPayload) (cache_key : String) :
    Option CachedMetadataSnapshot :=
  if payload.version ≠ 1 then none
  else if payload.schema_version ≠ 1 then none
  else if payload.cache_key ≠ cache_key then none
  else some
    { cache_key := cache_key
      manifest_hash := payload.manifest_hash
      manifest := payload.manifest
      sessions := payload.sessions.map deserialize_session_record }

namespace DiskMetadataCache

/-- Loop of `DiskMetadataCache.load` over the candidate directories. -/
def loadLoop (c : DiskMetadataCache) (cache_key : String) (disk : MetaDisk) :
    List String → Nat → DiskMetadataCache × MetadataCacheLoadResult
  | [], _ =>
    (c, { status := "miss", snapshot := none, cache_dir := none,
          cache_path := none })
  | dir :: rest, idx =>
    let cache_path := metaSnapshotPath dir
    match disk cache_path with
    | none => loadLoop c cache_key disk rest (idx + 1)
    | some payload =>
      match parse_metadata_snapshot payload cache_key with
      | none => loadLoop c cache_key disk rest (idx + 1)
      | some snapshot =>
        ({ c with cache_dir := dir, cache_path := cache_path },
         { status := if idx = 0 then "hit" else "fallback_hit"
           snapshot := some snapshot
           cache_dir := some dir
           cache_path := some cache_path })

/-- Models `DiskMetadataCache.load`. -/
def load (c : DiskMetadataCache) (cache_key : String) (disk : MetaDisk) :
    DiskMetadataCache × MetadataCacheLoadResult :=
  if ¬ c.enabled then
    (c, { status := "miss", snapshot := none, cache_dir := none,
          cache_path := none })
  else loadLoop c cache_key disk c.cache_dirs 0

/-- Loop of `DiskMetadataCache.persist` over the candidate directories;
`write_ok` gives the outcome of `_atomic_write_json_with_error` per
directory and the returned disk view records the atomic write. -/
def persistLoop (c : DiskMetadataCache) (payload : MetaPayload)
    (write_ok : String → Bool) (disk : MetaDisk) :
    List String → Nat →
    DiskMetadataCache × MetadataCachePersistResult × MetaDisk
  | [], _ =>
    ({ c with enabled := false },
     { status := "write_fail", cache_dir := none, cache_path := none },
     disk)
  | dir :: rest, idx =>
    if write_ok dir then
      let cache_path := metaSnapshotPath dir
      ({ c with cache_dir := dir, cache_path := cache_path },
       { status := if idx = 0 then "hit" else "fallback_hit"
         cache_dir := some dir
         cache_path := some cache_path },
       fun p => if p = cache_path then some payload else disk p)
    else persistLoop c payload write_ok disk rest (idx + 1)

/-- Models `DiskMetadataCache.persist`. -/
def persist (c : DiskMetadataCache) (payload : MetaPayload)
    (write_ok : String → Bool) (disk : MetaDisk) :
    DiskMetadataCache × MetadataCachePersistResult × MetaDisk :=
  if ¬ c.enabled then
    (c, { status := "miss", cache_dir := none, cache_path := none }, disk)
  else persistLoop c payload write_ok disk c.cache_dirs 0

end DiskMetadataCache

/-! ## Session service (`data_store.py`)

The service is embedded as a state machine over explicit world inputs
(environment, clocks, disk views).  Fallible Python code is modelled in
`Except PyErr`; an uncaught Python exception is an `Except.error`.
Providers are modelled abstractly by the capability set the core consumes
(the spec's collaborator contract): their concrete construction by
`indexer.build_providers` is represented by a `registry` argument, and the
per-file cache attached via `attach_cache` is internal to the abstract
provider behaviour.  Threads are sequentialized: the caller of a blocking
refresh is the single in-flight owner, and a background daemon thread runs
to completion immediately (its exceptions die with the thread). -/

/-- Uncaught Python exceptions crossing the embedded code. -/
inductive PyErr
  | attributeError (type_name attr : String)
  | providerFailure (msg : String)
deriving DecidableEq

/-- Observable side effects of the service, used to state claims about
which collaborators a call invokes. -/
inductive Effect
  | buildProviders
  | metaCacheLoad (cache_key : String)
  | metaCachePersist
  | sessionCacheLoad
  | sessionCachePersist
  | providerSessions (name : String)
  | providerSessionsError (name : String)
  | providerCachePaths (name : String)
  | providerDirectLoad (name : String) (path : String)
  | refreshStart (reason : String)
deriving DecidableEq

/-- Process environment (`os.getenv`). -/
abbrev Env := String → Option String

/-- Abstract provider: the capability set `SessionService` consumes. -/
structure ProviderModel where
  name : String
  module_name : String
  class_name : String
  base_dir : String
  glob_patterns : List String
  env_var : Option String
  sessionsFn : Except PyErr (List SessionRecord)
  validation_paths : Except PyErr (List String)
  direct_load : String → Option String → Except PyErr (Option SessionRecord)

/-- World inputs of one service call: environment, disks, stat view,
write outcomes and the clock. -/
structure World where
  env : Env
  home : String
  cwd : String
  fs : Fs
  metaDisk : MetaDisk
  sessionDisk : Option SessionCachePayload
  session_write_ok : Bool
  meta_write_ok : String → Bool
  now : Int

/-- Models `data_store._strict_cache_mode`. -/
def strict_cache_mode (env : Env) : Bool :=
  ["1", "true", "yes", "on"].contains
    (pyLower (pyStrip ((env "AGENT_SESSIONS_STRICT_CACHE").getD "")))

/-- Models `cache.cache_disabled`. -/
def cache_disabled (env : Env) : Bool :=
  ["1", "true", "yes", "on"].contains
    (pyLower ((env "AGENT_SESSIONS_DISABLE_DISK_CACHE").getD ""))

/-- Models `cache.default_cache_dir` (POSIX branch; `Path.home()` is the
`home` argument). -/
def default_cache_dir (env : Env) (home : String) : String :=
  match env "XDG_CACHE_HOME" with
  | some v => if v ≠ "" then v ++ "/agent-sessions"
              else home ++ "/.cache/agent-sessions"
  | none => home ++ "/.cache/agent-sessions"

/-- Models `cache.cache_dir_from_env` (`expanduser` is the identity on the
modelled paths). -/
def cache_dir_from_env (env : Env) (home : String) : String :=
  let value := pyStrip ((env "AGENT_SESSIONS_CACHE_DIR").getD "")
  if value ≠ "" then value else default_cache_dir env home

/-- Order-preserving deduplication (`seen` set loop in
`metadata_cache_dir_candidates`; `normcase`/`fspath` are the identity on
the modelled POSIX paths). -/
def dedupPreserve (l : List String) : List String :=
  l.foldl (fun acc x => if acc.contains x then acc else acc ++ [x]) []

/-- Models `cache.metadata_cache_dir_candidates`. -/
def metadata_cache_dir_candidates (env : Env) (home cwd : String) :
    List String :=
  let env_value := pyStrip ((env "AGENT_SESSIONS_CACHE_DIR").getD "")
  let head := if env_value ≠ "" then [env_value] else []
  dedupPreserve
    (head ++ [default_cache_dir env home, cwd ++ "/.agent-sessions-cache"])

/-- Models `DiskSessionCache.from_env`. -/
def DiskSessionCache.from_env (env : Env) (home : String) : DiskSessionCache :=
  if cache_disabled env then { enabled := false, cache_dir := ".", entries := [] }
  else { enabled := true, cache_dir := cache_dir_from_env env home, entries := [] }

/-- Models `DiskMetadataCache.from_env`. -/
def DiskMetadataCache.from_env (env : Env) (home cwd : String) :
    DiskMetadataCache :=
  if cache_disabled env then
    { enabled := false, cache_dir := ".", cache_path := metaSnapshotPath "."
      cache_dirs := ["."] }
  else
    let cache_dirs := metadata_cache_dir_candidates env home cwd
    let primary := cache_dirs.headD "."
    { enabled := true, cache_dir := primary
      cache_path := metaSnapshotPath primary, cache_dirs := cache_dirs }

/-- Lexicographic order on `(provider, path)` keys, Python tuple order. -/
def keyLexLe (a b : String × String) : Bool :=
  strLt a.1 b.1 || (a.1 == b.1 && strLe a.2 b.2)

/-- Models `SessionService._manifest_hash_for`.  The sha256 of the
canonical `provider\x00path\x00mtime\x00size\n` encoding is modelled by
the encoding itself (the claims only use that the hash is a deterministic
function of the sorted entries). -/
def manifest_hash_for (manifest : List ((String × String) × (Int × Int))) :
    String :=
  let sorted := isort (fun a b => keyLexLe a.1 b.1) manifest
  String.join (sorted.map fun e =>
    e.1.1 ++ "\x00" ++ e.1.2 ++ "\x00" ++ toString e.2.1 ++ "\x00"
      ++ toString e.2.2 ++ "\n")

/-- Models `SessionService._compute_cache_key`.  The sha256 of the
canonical JSON provider-configuration payload is modelled by a canonical
encoding of the same fields. -/
def compute_cache_key (env : Env) (providers : List ProviderModel) : String :=
  let sorted := isort (fun a b => strLe a.name b.name) providers
  let enc := sorted.map fun p =>
    p.name ++ "|" ++ p.module_name ++ "|" ++ p.class_name ++ "|"
      ++ p.base_dir ++ "|" ++ String.intercalate "," p.glob_patterns ++ "|"
      ++ p.env_var.getD "" ++ "|"
      ++ (match p.env_var with
          | some v => (env v).getD ""
          | none => "")
  "schema:1;" ++ String.intercalate ";" enc

/-- Models `data_store._CacheState`. -/
structure CacheState where
  refresh_interval : Option Int
  last_loaded : Int := 0

/-- Models `_CacheState.should_reload`. -/
def CacheState.should_reload (cs : CacheState) (has_sessions : Bool)
    (now : Int) : Bool :=
  if ¬ has_sessions then true
  else
    match cs.refresh_interval with
    | none => false
    | some i => if i ≤ 0 then true else decide (now - cs.last_loaded > i)

/-- Models `data_store.SessionLoadResult`. -/
structure SessionLoadResult where
  session : Option SessionRecord
  source : String
  parse_ms : Int := 0
  cache_status : String := "miss"
deriving DecidableEq

/-- Models `data_store.SessionService` state.  The `_direct_inflight`
map and the lock/condition objects coordinate concurrent threads only and
have no sequential observable content. -/
structure SessionService where
  provider_overrides : Option (List ProviderModel)
  providers : Option (List ProviderModel)
  sessions : List SessionRecord
  sessions_by_path : List (String × SessionRecord)
  sessions_by_provider_id : List ((String × String) × SessionRecord)
  manifest : List ((String × String) × (Int × Int))
  manifest_hash : String
  cache_key : Option String
  cache_state : CacheState
  serve_stale_while_revalidate : Bool
  bootstrapped_from_disk : Bool
  startup_validation_scheduled : Bool
  refresh_inflight : Bool
  metadata_cache : DiskMetadataCache
  direct_disk_cache : DiskSessionCache
  direct_disk_cache_loaded : Bool

/-- Models `SessionService.__init__`. -/
def mkSessionService (providers : Option (List ProviderModel))
    (refresh_interval : Option Int) (w : World) : SessionService :=
  { provider_overrides := providers
    providers := providers
    sessions := []
    sessions_by_path := []
    sessions_by_provider_id := []
    manifest := []
    manifest_hash := ""
    cache_key := none
    cache_state := { refresh_interval := refresh_interval }
    serve_stale_while_revalidate :=
      providers.isNone && !strict_cache_mode w.env
    bootstrapped_from_disk := false
    startup_validation_scheduled := false
    refresh_inflight := false
    metadata_cache := DiskMetadataCache.from_env w.env w.home w.cwd
    direct_disk_cache := DiskSessionCache.from_env w.env w.home
    direct_disk_cache_loaded := false }

/-- Python's `snapshot is None` test in
`_bootstrap_from_disk_cache_locked`: `DiskMetadataCache.load` returns a
`MetadataCacheLoadResult` dataclass instance on every code path, never
Python `None`, so the test is always false. -/
def pyIsNone (_ : MetadataCacheLoadResult) : Bool := false

/-- Attribute access `snapshot.sessions` performed by
`_bootstrap_from_disk_cache_locked` on the value returned by
`DiskMetadataCache.load`.  `MetadataCacheLoadResult` is declared with
`slots=True` and fields `status`, `snapshot`, `cache_dir`, `cache_path`,
`attempts` only, so the access raises `AttributeError`. -/
def MetadataCacheLoadResult.getattr_sessions (_ : MetadataCacheLoadResult) :
    Except PyErr (List SessionRecord) :=
  .error (.attributeError "MetadataCacheLoadResult" "sessions")

/-- Attribute access `snapshot.manifest` on the same result object
(equally absent from the slots). -/
def MetadataCacheLoadResult.getattr_manifest (_ : MetadataCacheLoadResult) :
    Except PyErr (List ((String × String) × (Int × Int))) :=
  .error (.attributeError "MetadataCacheLoadResult" "manifest")

/-- Attribute access `snapshot.manifest_hash` on the same result object
(equally absent from the slots). -/
def MetadataCacheLoadResult.getattr_manifest_hash
    (_ : MetadataCacheLoadResult) : Except PyErr String :=
  .error (.attributeError "MetadataCacheLoadResult" "manifest_hash")

namespace SessionService

/-- Models `SessionService._providers_locked`. -/
def providers_locked (svc : SessionService) (registry : List ProviderModel) :
    SessionService × List ProviderModel × List Effect :=
  match svc.providers with
  | some ps => (svc, ps, [])
  | none => ({ svc with providers := some registry }, registry,
             [Effect.buildProviders])

/-- Models `SessionService._ensure_direct_disk_cache_loaded_locked`. -/
def ensure_direct_disk_cache_loaded (svc : SessionService) (w : World) :
    SessionService × List Effect :=
  if svc.direct_disk_cache_loaded then (svc, [])
  else
    ({ svc with direct_disk_cache := svc.direct_disk_cache.load w.sessionDisk
                direct_disk_cache_loaded := true },
     [Effect.sessionCacheLoad])

/-- Models `SessionService._providers_for_lookup`. -/
def providers_for_lookup (svc : SessionService) (w : World)
    (registry : List ProviderModel) :
    SessionService × List ProviderModel × List Effect :=
  let (svc, providers, e1) := svc.providers_locked registry
  let (svc, e2) := svc.ensure_direct_disk_cache_loaded w
  (svc, providers, e1 ++ e2)

/-- Models `SessionService._providers_for_refresh`. -/
def providers_for_refresh (svc : SessionService) (w : World)
    (registry : List ProviderModel) :
    SessionService × List ProviderModel × List Effect :=
  match svc.provider_overrides with
  | none => (svc, registry, [Effect.buildProviders])
  | some _ => svc.providers_for_lookup w registry

/-- Models `SessionService._apply_snapshot_locked`. -/
def apply_snapshot_locked (svc : SessionService)
    (sessions : List SessionRecord)
    (manifest : List ((String × String) × (Int × Int)))
    (manifest_hash : String) (cache_key : String) (now : Int) :
    SessionService :=
  let by_path := sessions.foldl (fun acc r => listUpsert r.source_path r acc) []
  let by_provider_id := sessions.foldl
    (fun acc r => listUpsert (r.provider, r.session_id) r acc) []
  { svc with
    sessions := sessions
    manifest := manifest
    manifest_hash := manifest_hash
    cache_key := some cache_key
    cache_state := { svc.cache_state with last_loaded := now }
    sessions_by_path := by_path
    sessions_by_provider_id := by_provider_id }

/-- Models `SessionService._bootstrap_from_disk_cache_locked`. -/
def bootstrap_from_disk_cache (svc : SessionService) (w : World)
    (registry : List ProviderModel) :
    Except PyErr (SessionService × List Effect) := do
  if svc.bootstrapped_from_disk then return (svc, [])
  let svc := { svc with bootstrapped_from_disk := true }
  let (svc, providers, e0) := svc.providers_locked registry
  let ck := compute_cache_key w.env providers
  let svc := { svc with cache_key := some ck }
  let (mc, load_result) := svc.metadata_cache.load ck w.metaDisk
  let svc := { svc with metadata_cache := mc }
  let effs := e0 ++ [Effect.metaCacheLoad ck]
  if pyIsNone load_result then
    return (svc, effs)
  else
    -- `_apply_snapshot_locked(sessions=snapshot.sessions, ...)`: keyword
    -- arguments are evaluated left to right on the load result itself
    let sessions ← load_result.getattr_sessions
    let manifest ← load_result.getattr_manifest
    let manifest_hash ← load_result.getattr_manifest_hash
    return (svc.apply_snapshot_locked sessions manifest manifest_hash ck w.now,
            effs)

/-- Sort key of `indexer._record_timestamp`. -/
def record_timestamp_key (r : SessionRecord) : Option Int :=
  match r.updated_at with
  | some t => some t
  | none => r.started_at

/-- Models `indexer.load_sessions` over abstract providers: provider
failures are caught and contribute nothing; the aggregate is sorted by
most recent activity, descending. -/
def load_sessions_indexer (providers : List ProviderModel) :
    List SessionRecord × List Effect :=
  let step := providers.foldl
    (fun (acc : List SessionRecord × List Effect) p =>
      match p.sessionsFn with
      | .error _ => (acc.1, acc.2 ++ [Effect.providerSessionsError p.name])
      | .ok recs => (acc.1 ++ recs, acc.2 ++ [Effect.providerSessions p.name]))
    ([], [])
  (isort (fun a b => optTsLe (record_timestamp_key b) (record_timestamp_key a))
     step.1,
   step.2)

/-- Models `SessionService._load_sessions_with_cache`. -/
def load_sessions_with_cache (w : World) (providers : List ProviderModel) :
    List SessionRecord × List Effect :=
  let dsc := DiskSessionCache.from_env w.env w.home
  let dsc := dsc.load w.sessionDisk
  let (sessions, effs) := load_sessions_indexer providers
  let _persisted := dsc.persist w.session_write_ok
  (sessions, [Effect.sessionCacheLoad] ++ effs ++ [Effect.sessionCachePersist])

/-- Models `SessionService._build_manifest` (canonicalization
`expanduser().resolve()` is the identity on the modelled paths). -/
def build_manifest (providers : List ProviderModel) (fs : Fs) :
    List ((String × String) × (Int × Int)) × List Effect :=
  providers.foldl
    (fun (acc : List ((String × String) × (Int × Int)) × List Effect) p =>
      match p.validation_paths with
      | .error _ => (acc.1, acc.2 ++ [Effect.providerCachePaths p.name])
      | .ok paths =>
        (paths.foldl
          (fun mm path =>
            match fs path with
            | none => mm
            | some fp => listUpsert (p.name, path) fp mm)
          acc.1,
         acc.2 ++ [Effect.providerCachePaths p.name]))
    ([], [])

/-- Models `SessionService._refresh_snapshot`. -/
def refresh_snapshot (svc : SessionService) (w : World)
    (registry : List ProviderModel) :
    Except PyErr (SessionService × List Effect) := do
  let (svc, providers, e1) := svc.providers_for_refresh w registry
  let ck := compute_cache_key w.env providers
  let (manifest, e2) := build_manifest providers w.fs
  let mh := manifest_hash_for manifest
  let previous_manifest_hash := svc.manifest_hash
  let has_sessions : Bool := svc.sessions ≠ []
  let previous_cache_key := svc.cache_key
  let svc := { svc with cache_key := some ck }
  let cache_key_changed :=
    previous_cache_key.isSome && previous_cache_key != some ck
  let manifest_verifiable : Bool := manifest ≠ []
  let manifest_changed := manifest_verifiable && mh != previous_manifest_hash
  let should_rebuild0 := cache_key_changed || !has_sessions
  let should_rebuild :=
    if should_rebuild0 then true
    else if !manifest_verifiable then true
    else manifest_changed
  if ¬ should_rebuild then
    let svc := { svc with
      manifest := manifest
      manifest_hash := mh
      cache_state := { svc.cache_state with last_loaded := w.now } }
    return (svc, e1 ++ e2)
  else
    let (sessions, e3) := load_sessions_with_cache w providers
    let svc := svc.apply_snapshot_locked sessions manifest mh ck w.now
    let payload : MetaPayload :=
      { version := 1, schema_version := 1, cache_key := ck
        manifest_hash := mh
        manifest := isort (fun a b => keyLexLe a.1 b.1) manifest
        sessions := sessions.map serialize_session_record }
    let (mc, _result, _disk) :=
      svc.metadata_cache.persist payload w.meta_write_ok w.metaDisk
    return ({ svc with metadata_cache := mc },
            e1 ++ e2 ++ e3 ++ [Effect.metaCachePersist])

/-- Models `SessionService._refresh_worker` (the `finally` clears the
in-flight flag and notifies waiters; an exception then propagates, and the
`Except` embedding discards the in-error state). -/
def refresh_worker (svc : SessionService) (w : World)
    (registry : List ProviderModel) (reason : String) :
    Except PyErr (SessionService × List Effect) :=
  match svc.refresh_snapshot w registry with
  | .ok (svc, effs) =>
    .ok ({ svc with refresh_inflight := false },
         Effect.refreshStart reason :: effs)
  | .error e => .error e

/-- Models `SessionService._refresh_blocking`: in the sequential
embedding a true in-flight flag means another owner finishes first and the
caller returns after waiting. -/
def refresh_blocking (svc : SessionService) (w : World)
    (registry : List ProviderModel) (reason : String) :
    Except PyErr (SessionService × List Effect) :=
  if svc.refresh_inflight then .ok (svc, [])
  else refresh_worker { svc with refresh_inflight := true } w registry reason

/-- Models `SessionService._refresh_async`: the daemon worker thread runs
to completion immediately in the sequential embedding, and an exception in
it dies with the thread instead of propagating. -/
def refresh_async (svc : SessionService) (w : World)
    (registry : List ProviderModel) (reason : String) :
    SessionService × List Effect :=
  if svc.refresh_inflight then (svc, [])
  else
    match refresh_worker { svc with refresh_inflight := true } w registry reason with
    | .ok r => r
    | .error _ => (svc, [Effect.refreshStart reason])

/-- Models `SessionService._ensure_snapshot_ready`. -/
def ensure_snapshot_ready (svc : SessionService) (w : World)
    (registry : List ProviderModel) :
    Except PyErr (SessionService × List Effect) := do
  if svc.sessions = [] then
    let (svc, e0) ← svc.bootstrap_from_disk_cache w registry
    if svc.sessions = [] then
      let (svc, e1) ← svc.refresh_blocking w registry "startup_miss"
      return (svc, e0 ++ e1)
    else if svc.cache_state.should_reload true w.now then
      if svc.serve_stale_while_revalidate then
        let (svc, e1) := svc.refresh_async w registry "startup_refresh_interval"
        return (svc, e0 ++ e1)
      else
        let (svc, e1) ← svc.refresh_blocking w registry
          "startup_refresh_interval"
        return (svc, e0 ++ e1)
    else if svc.serve_stale_while_revalidate ∧
        ¬ svc.startup_validation_scheduled then
      let svc := { svc with startup_validation_scheduled := true }
      let (svc, e1) := svc.refresh_async w registry "startup_validate"
      return (svc, e0 ++ e1)
    else
      return (svc, e0)
  else if svc.cache_state.should_reload true w.now then
    if svc.serve_stale_while_revalidate then
      return svc.refresh_async w registry "refresh_interval"
    else
      svc.refresh_blocking w registry "refresh_interval"
  else
    return (svc, [])

/-- Models `SessionService._all_sessions` / `all_sessions`. -/
def all_sessions (svc : SessionService) (w : World)
    (registry : List ProviderModel) :
    Except PyErr (SessionService × List Effect × List SessionRecord) := do
  let (svc, effs) ← svc.ensure_snapshot_ready w registry
  return (svc, effs, svc.sessions)

/-- Models `SessionService.list_sessions`. -/
def list_sessions (svc : SessionService) (w : World)
    (registry : List ProviderModel) (query : SessionQuery)
    (max_page_size : Option Nat) :
    Except PyErr (SessionService × List Effect × SessionPage) := do
  let (svc, effs) ← svc.ensure_snapshot_ready w registry
  return (svc, effs, list_sessions_snapshot svc.sessions query max_page_size)

/-- Models `SessionService._try_direct_load`: provider exceptions are
caught, logged and turned into `none`. -/
def try_direct_load (p : ProviderModel) (source_path : String)
    (session_id : Option String) : Option SessionRecord × List Effect :=
  match p.direct_load source_path session_id with
  | .error _ => (none, [Effect.providerDirectLoad p.name source_path])
  | .ok r => (r, [Effect.providerDirectLoad p.name source_path])

/-- Probe loop of `_load_session_from_source_path` when no provider name
is given: first hit wins. -/
def probe_direct_load (providers : List ProviderModel) (source_path : String)
    (session_id : Option String) : Option SessionRecord × List Effect :=
  match providers with
  | [] => (none, [])
  | p :: rest =>
    match try_direct_load p source_path session_id with
    | (some r, e) => (some r, e)
    | (none, e) =>
      let (r2, e2) := probe_direct_load rest source_path session_id
      (r2, e ++ e2)

/-- Models `SessionService._load_session_from_source_path`. -/
def load_session_from_source_path (svc : SessionService) (w : World)
    (registry : List ProviderModel) (source_path : String)
    (session_id provider : Option String) :
    SessionService × Option SessionRecord × List Effect :=
  let (svc, providers, e1) := svc.providers_for_lookup w registry
  if optStrTruthy provider then
    match providers.find? (fun p => p.name == provider.getD "") with
    | none => (svc, none, e1)
    | some candidate =>
      let (r, e2) := try_direct_load candidate source_path session_id
      (svc, r, e1 ++ e2)
  else
    let (r, e2) := probe_direct_load providers source_path session_id
    (svc, r, e1 ++ e2)

/-- Models `SessionService._upsert_session_locked`. -/
def upsert_session_locked (svc : SessionService) (record : SessionRecord) :
    SessionService :=
  let provider_key := (record.provider, record.session_id)
  let sessions :=
    match svc.sessions_by_provider_id.lookup provider_key with
    | none => svc.sessions ++ [record]
    | some existing =>
      match svc.sessions.findIdx? (fun r => r == existing) with
      | none => svc.sessions ++ [record]
      | some i => svc.sessions.set i record
  { svc with
    sessions := sessions
    sessions_by_provider_id :=
      listUpsert provider_key record svc.sessions_by_provider_id
    sessions_by_path :=
      listUpsert record.source_path record svc.sessions_by_path }

/-- Models `SessionService._load_session_from_source_path_coalesced` in
the sequential embedding: the in-flight map is empty, so the caller is the
single owner. -/
def load_session_from_source_path_coalesced (svc : SessionService)
    (w : World) (registry : List ProviderModel) (source_path : String)
    (session_id provider : Option String) :
    SessionService × List Effect × SessionLoadResult :=
  let (svc, record, effs) :=
    svc.load_session_from_source_path w registry source_path session_id
      provider
  let svc :=
    match record with
    | some r => svc.upsert_session_locked r
    | none => svc
  (svc, effs,
   { session := record, source := "direct"
     cache_status := if record.isSome then "hit" else "miss" })

/-- Models `SessionService._lookup_cached_session`. -/
def lookup_cached_session (svc : SessionService)
    (provider session_id source_path : Option String) :
    Option SessionRecord :=
  let first :=
    if optStrTruthy provider ∧ optStrTruthy session_id then
      match svc.sessions_by_provider_id.lookup
          (provider.getD "", session_id.getD "") with
      | some record =>
        if ¬ optStrTruthy source_path ∨
            record.source_path = source_path.getD "" then
          some record
        else none
      | none => none
    else none
  match first with
  | some r => some r
  | none =>
    if optStrTruthy source_path then
      svc.sessions_by_path.lookup (source_path.getD "")
    else none

/-- Models `SessionService.get_session_with_metrics`. -/
def get_session_with_metrics (svc : SessionService) (w : World)
    (registry : List ProviderModel)
    (provider session_id source_path : Option String) :
    Except PyErr (SessionService × List Effect × SessionLoadResult) :=
  if ¬ optStrTruthy provider ∧ ¬ optStrTruthy source_path then
    .ok (svc, [], { session := none, source := "invalid" })
  else
    let step1 : SessionService × List Effect × Option SessionLoadResult :=
      if optStrTruthy source_path then
        let (svc, e, res) := svc.load_session_from_source_path_coalesced w
          registry (source_path.getD "") session_id provider
        if res.session.isSome then (svc, e, some res) else (svc, e, none)
      else (svc, [], none)
    match step1 with
    | (svc, effs, some res) => .ok (svc, effs, res)
    | (svc, effs, none) => do
      let (svc, e2) ← svc.ensure_snapshot_ready w registry
      let result :=
        match svc.lookup_cached_session provider session_id source_path with
        | none =>
          { session := none, source := "snapshot", cache_status := "miss" }
        | some session =>
          { session := some session, source := "snapshot"
            cache_status := "hit" }
      return (svc, effs ++ e2, result)

/-- Models `SessionService.get_session`. -/
def get_session (svc : SessionService) (w : World)
    (registry : List ProviderModel)
    (provider session_id : Option String)
    (source_path : Option String) :
    Except PyErr (SessionService × List Effect × Option SessionRecord) := do
  let (svc, effs, res) ←
    svc.get_session_with_metrics w registry provider session_id source_path
  return (svc, effs, res.session)

end SessionService

/-! ## Auxiliary concrete inputs and derived definitions -/

/-- World for the cold-start scenario: empty environment, no disk caches,
nothing on the file system. -/
def c1World : World :=
  { env := fun _ => none
    home := "/home/user"
    cwd := "/workspace"
    fs := fun _ => none
    metaDisk := fun _ => none
    sessionDisk := none
    session_write_ok := true
    meta_write_ok := fun _ => true
    now := 0 }

/-- A freshly constructed service with an explicit empty provider list. -/
def c1Service : SessionService := mkSessionService (some []) (some 5) c1World

/-- Record used by the C3 failing input: one legacy message "hi". -/
def c3Record : SessionRecord :=
  { provider := "prov", session_id := "s1", source_path := "/a"
    messages := [{ role := "user", content := "hi" }] }

/-- Index of the first writable candidate directory. -/
def firstWritableIdx (wk : String → Bool) : List String → Option Nat
  | [] => none
  | d :: rest => if wk d then some 0 else (firstWritableIdx wk rest).map (· + 1)

/-- Records for the C6 witness (spec scenario g). -/
def c6r1 : SessionRecord :=
  { provider := "p", session_id := "a", source_path := "/1"
    updated_at := some 30 }

/-- Second record for the C6 witness. -/
def c6r2 : SessionRecord :=
  { provider := "p", session_id := "b", source_path := "/2"
    updated_at := some 20 }

/-- Third (oldest) record for the C6 witness. -/
def c6r3 : SessionRecord :=
  { provider := "p", session_id := "c", source_path := "/3"
    updated_at := some 10 }

/-- Query for the C6 witness: page 2 of size 2. -/
def c6q : SessionQuery := { page := 2, page_size := 2 }

/-- Sessions for the C6 witness, deliberately unsorted. -/
def c6sessions : List SessionRecord := [c6r3, c6r1, c6r2]

/-- C2 (amended): for every builder state, `build` returns `null` iff no
legacy messages were accumulated, no timestamp was recorded, and no model
value is set; normalized messages alone (none of which carried a
timestamp) do not prevent a `null` result.  Otherwise `build` returns a
record. -/
theorem C2_build_none_iff (b : SessionBuilder) (sid : Option String) :
    b.build sid = none ↔
      (b.msgs = [] ∧ b.started_at = none ∧ b.updated_at = none ∧
       optStrTruthy b.model = false) := by
  by_cases hc : b.msgs = [] ∧ b.started_at = none ∧ b.updated_at = none ∧
      optStrTruthy b.model = false
  · simp [SessionBuilder.build, hc]
  · simp [SessionBuilder.build, hc]

/-- C2 counterexample: a builder state reached by one
`add_normalized_message` operation (a timestampless normalized message)
has accumulated a normalized message, yet `build` returns `null`; the
claim's "null iff no messages (legacy or normalized), no timestamps and no
model" is false on the code. -/
theorem C2_counterexample :
    ((SessionBuilder.add_normalized_message
        { provider := "p", source_path := "/tmp/session.jsonl" }
        { id := "m1", role := "assistant"
          parts := [{ kind := "text", text := some "hello" }] }
        none).1.norm_msgs ≠ [] ∧
     (SessionBuilder.add_normalized_message
        { provider := "p", source_path := "/tmp/session.jsonl" }
        { id := "m1", role := "assistant"
          parts := [{ kind := "text", text := some "hello" }] }
        none).1.build none = none) := by
  constructor
  · decide
  · rfl

/-- C10: for every service state and `session_id` (including `none`),
`get_session_with_metrics` with no provider and no source path returns a
result with a null session and source `"invalid"`, with the service state
unchanged and no effects (no provider call, no refresh, no bootstrap). -/
theorem C10_get_session_with_metrics_invalid (svc : SessionService)
    (w : World) (registry : List ProviderModel) (session_id : Option String) :
    svc.get_session_with_metrics w registry none session_id none =
      .ok (svc, [],
        { session := none, source := "invalid", parse_ms := 0
          cache_status := "miss" }) := by
  rfl

/-- C1 (failing input): on a freshly constructed service the first read of
each snapshot-backed public API raises `AttributeError`: the bootstrap
treats the `MetadataCacheLoadResult` returned by
`DiskMetadataCache.load` as a snapshot-or-`None` and reads `.sessions`
from it, an attribute the slots dataclass does not have.  The claim (and
the spec's no-raise policy) is violated by the code. -/
theorem C1_first_read_raises :
    c1Service.list_sessions c1World [] {} none =
      .error (.attributeError "MetadataCacheLoadResult" "sessions") ∧
    c1Service.all_sessions c1World [] =
      .error (.attributeError "MetadataCacheLoadResult" "sessions") ∧
    c1Service.get_session_with_metrics c1World [] (some "codex") (some "s1")
        none =
      .error (.attributeError "MetadataCacheLoadResult" "sessions") := by
  refine ⟨rfl, rfl, rfl⟩

/-- C3 (failing input): query normalization does not strip private-use
characters from the search term (it only trims whitespace), while the
search index does strip them; a term containing U+E000 therefore fails to
match a record that the same term without U+E000 matches, refuting the
claimed invariance. -/
theorem C3_private_use_search :
    (SessionQuery.normalized { search := "hi\uE000" } none).search
        = "hi\uE000" ∧
    (SessionQuery.normalized { search := "hi\uE000" } none).search.toList.any
        (fun c => decide (0xE000 ≤ c.toNat ∧ c.toNat < 0xF900)) = true ∧
    matches_search c3Record
        ((SessionQuery.normalized { search := "hi" } none).search) = true ∧
    matches_search c3Record
        ((SessionQuery.normalized { search := "hi\uE000" } none).search)
        = false := by
  refine ⟨rfl, by decide, by decide, by decide⟩

/-- C7: role resolution of `normalize_message`.  Any `tool-result` part
forces role `tool`, and when the incoming role was `user`/`human` a
warning containing the substring "role override" is appended; otherwise a
known alias resolves to its canonical value, and an unknown role becomes
`assistant` (with a `tool-call` present or by default).  The alias table
maps `developer` to `system`, `human` to `user`, `ai`/`model`/`gemini` to
`assistant` and `function` to `tool`. -/
theorem C7_role_resolution (provider : String) (role : Option String)
    (parts : List NormalizedPart) (hparts : parts ≠ []) :
    (parts.any (fun p => p.kind == "tool-result") = true →
      resolve_role role parts = "tool" ∧
      (∀ r, role = some r → r ≠ "" →
        (pyLower (pyStrip r) = "user" ∨ pyLower (pyStrip r) = "human") →
        ∃ pre post,
          role_override_warnings provider role parts =
            [pre ++ "role override" ++ post])) ∧
    (parts.any (fun p => p.kind == "tool-result") = false →
      (∀ c, role_alias (pyLower (pyStrip (role.getD ""))) = some c →
        resolve_role role parts = c) ∧
      (role_alias (pyLower (pyStrip (role.getD ""))) = none →
        resolve_role role parts = "assistant")) ∧
    (role_alias "developer" = some "system" ∧
     role_alias "human" = some "user" ∧
     role_alias "ai" = some "assistant" ∧
     role_alias "model" = some "assistant" ∧
     role_alias "gemini" = some "assistant" ∧
     role_alias "function" = some "tool") := by
  refine ⟨?_, ?_, by decide⟩
  · intro htr
    have hres : resolve_role role parts = "tool" := by
      simp [resolve_role, htr]
    refine ⟨hres, ?_⟩
    rintro r rfl hne huser
    refine ⟨provider ++ ": ",
      " " ++ squote ++ r ++ squote ++ " -> " ++ squote ++ "tool" ++ squote,
      ?_⟩
    have hwarn : role_override_warnings provider (some r) parts =
        [role_override_warning provider r] := by
      unfold role_override_warnings
      rw [hres]
      simp only [hne, huser, and_self, true_and, reduceIte]
      rcases huser with h | h <;>
        simp [h, hne, role_alias, ROLE_ALIASES, List.find?]
    rw [hwarn]
    simp only [role_override_warning, List.cons.injEq, and_true]
    have hseg : ∀ X : String, ": role override " ++ X
        = ": " ++ ("role override" ++ (" " ++ X)) := by
      intro X
      apply String.ext
      simp only [String.data_append]
      rfl
    simp only [String.append_assoc]
    rw [hseg]
  · intro htr
    constructor
    · intro c hc
      simp [resolve_role, htr, hc]
    · intro hc
      simp [resolve_role, htr, hc]

/-- C7 witness: the spec's seed scenario — a user-role payload with one
`tool_result` part resolves to role `tool` with a "role override"
warning. -/
theorem C7_witness :
    resolve_role (some "user")
        [{ kind := "tool-result", tool_name := some "read_file" }] = "tool" ∧
    ∃ pre post,
      role_override_warnings "claude" (some "user")
          [{ kind := "tool-result", tool_name := some "read_file" }] =
        [pre ++ "role override" ++ post] := by
  have h := C7_role_resolution "claude" (some "user")
    [{ kind := "tool-result", tool_name := some "read_file" }] (by decide)
  have h1 := h.1 (by decide)
  exact ⟨h1.1, h1.2 "user" rfl (by decide) (by decide)⟩

theorem persistLoop_found (c : DiskMetadataCache) (payload : MetaPayload)
    (wk : String → Bool) (disk : MetaDisk) :
    ∀ (dirs : List String) (idx j : Nat), firstWritableIdx wk dirs = some j →
      (DiskMetadataCache.persistLoop c payload wk disk dirs idx).2.1.status
          = (if idx + j = 0 then "hit" else "fallback_hit") ∧
      (DiskMetadataCache.persistLoop c payload wk disk dirs idx).1.cache_dir
          = dirs.getD j "" ∧
      (DiskMetadataCache.persistLoop c payload wk disk dirs idx).1.cache_path
          = metaSnapshotPath (dirs.getD j "") ∧
      (DiskMetadataCache.persistLoop c payload wk disk dirs idx).2.1.cache_dir
          = some (dirs.getD j "") ∧
      (DiskMetadataCache.persistLoop c payload wk disk dirs idx).2.1.cache_path
          = some (metaSnapshotPath (dirs.getD j "")) ∧
      (DiskMetadataCache.persistLoop c payload wk disk dirs idx).1.enabled
          = c.enabled ∧
      (DiskMetadataCache.persistLoop c payload wk disk dirs idx).2.2
          (metaSnapshotPath (dirs.getD j "")) = some payload := by
  intro dirs
  induction dirs with
  | nil => intro idx j h; simp [firstWritableIdx] at h
  | cons d rest ih =>
    intro idx j h
    by_cases hw : wk d = true
    · have hj : j = 0 := by
        simp [firstWritableIdx, hw] at h
        omega
      subst hj
      simp [DiskMetadataCache.persistLoop, hw, List.getD]
    · simp only [firstWritableIdx, hw, if_false, Bool.false_eq_true,
        ite_false, Option.map_eq_some'] at h
      obtain ⟨j', hj', rfl⟩ := h
      have hrec := ih (idx + 1) j' hj'
      have harith : idx + 1 + j' = idx + (j' + 1) := by omega
      simpa [DiskMetadataCache.persistLoop, hw, List.getD, harith] using hrec

theorem persistLoop_none (c : DiskMetadataCache) (payload : MetaPayload)
    (wk : String → Bool) (disk : MetaDisk) :
    ∀ (dirs : List String) (idx : Nat), firstWritableIdx wk dirs = none →
      DiskMetadataCache.persistLoop c payload wk disk dirs idx =
        ({ c with enabled := false },
         { status := "write_fail", cache_dir := none, cache_path := none },
         disk) := by
  intro dirs
  induction dirs with
  | nil => intro idx _; rfl
  | cons d rest ih =>
    intro idx h
    by_cases hw : wk d = true
    · simp [firstWritableIdx, hw] at h
    · simp only [firstWritableIdx, hw, if_false, Bool.false_eq_true,
        ite_false, Option.map_eq_none'] at h
      simp [DiskMetadataCache.persistLoop, hw, ih (idx + 1) h]

/-- C8: on an enabled metadata cache, `persist` writes the snapshot to the
first writable candidate directory and returns `hit` when that candidate
is the first, `fallback_hit` otherwise, promoting the selected directory
and path and leaving the cache enabled; when every candidate fails it
returns `write_fail` and disables the cache, and every subsequent
`persist` on the disabled cache returns `miss` and stays disabled. -/
theorem C8_metadata_persist (c : DiskMetadataCache) (payload : MetaPayload)
    (wk : String → Bool) (disk : MetaDisk) (hen : c.enabled = true) :
    (∀ i, firstWritableIdx wk c.cache_dirs = some i →
      (c.persist payload wk disk).2.1.status
          = (if i = 0 then "hit" else "fallback_hit") ∧
      (c.persist payload wk disk).1.cache_dir = c.cache_dirs.getD i "" ∧
      (c.persist payload wk disk).1.cache_path
          = metaSnapshotPath (c.cache_dirs.getD i "") ∧
      (c.persist payload wk disk).2.1.cache_dir
          = some (c.cache_dirs.getD i "") ∧
      (c.persist payload wk disk).2.1.cache_path
          = some (metaSnapshotPath (c.cache_dirs.getD i "")) ∧
      (c.persist payload wk disk).1.enabled = true ∧
      (c.persist payload wk disk).2.2
          (metaSnapshotPath (c.cache_dirs.getD i "")) = some payload) ∧
    (firstWritableIdx wk c.cache_dirs = none →
      (c.persist payload wk disk).2.1.status = "write_fail" ∧
      (c.persist payload wk disk).1.enabled = false ∧
      (∀ (payload2 : MetaPayload) (wk2 : String → Bool) (disk2 : MetaDisk),
        ((c.persist payload wk disk).1.persist payload2 wk2 disk2).2.1.status
            = "miss" ∧
        ((c.persist payload wk disk).1.persist payload2 wk2 disk2).1.enabled
            = false)) := by
  have hpersist : c.persist payload wk disk =
      DiskMetadataCache.persistLoop c payload wk disk c.cache_dirs 0 := by
    simp [DiskMetadataCache.persist, hen]
  constructor
  · intro i hi
    have h := persistLoop_found c payload wk disk c.cache_dirs 0 i hi
    rw [hpersist]
    simpa [hen] using h
  · intro hnone
    have h := persistLoop_none c payload wk disk c.cache_dirs 0 hnone
    rw [hpersist, h]
    refine ⟨rfl, rfl, ?_⟩
    intro payload2 wk2 disk2
    constructor <;> rfl

/-- C8 witness: with candidates `["bad", "good"]` where only `"good"` is
writable, persist reports `fallback_hit` with the promoted path and stays
enabled; with no writable candidate it reports `write_fail`, disables the
cache, and a second persist reports `miss`. -/
theorem C8_witness :
    (let c : DiskMetadataCache :=
      { enabled := true, cache_dir := "bad"
        cache_path := metaSnapshotPath "bad", cache_dirs := ["bad", "good"] }
     let payload : MetaPayload :=
      { version := 1, schema_version := 1, cache_key := "k"
        manifest_hash := "", manifest := [], sessions := [] }
     let wk : String → Bool := fun d => d == "good"
     let disk : MetaDisk := fun _ => none
     (c.persist payload wk disk).2.1.status = "fallback_hit" ∧
     (c.persist payload wk disk).1.cache_dir = "good" ∧
     (c.persist payload wk disk).1.cache_path = "good/metadata_snapshot.json" ∧
     (c.persist payload wk disk).1.enabled = true) ∧
    (let c : DiskMetadataCache :=
      { enabled := true, cache_dir := "bad"
        cache_path := metaSnapshotPath "bad", cache_dirs := ["bad", "worse"] }
     let payload : MetaPayload :=
      { version := 1, schema_version := 1, cache_key := "k"
        manifest_hash := "", manifest := [], sessions := [] }
     let wk : String → Bool := fun _ => false
     let disk : MetaDisk := fun _ => none
     (c.persist payload wk disk).2.1.status = "write_fail" ∧
     (c.persist payload wk disk).1.enabled = false ∧
     ((c.persist payload wk disk).1.persist payload wk disk).2.1.status
        = "miss") := by
  constructor
  · have h := (C8_metadata_persist
      { enabled := true, cache_dir := "bad"
        cache_path := metaSnapshotPath "bad", cache_dirs := ["bad", "good"] }
      { version := 1, schema_version := 1, cache_key := "k"
        manifest_hash := "", manifest := [], sessions := [] }
      (fun d => d == "good") (fun _ => none) rfl).1 1 (by decide)
    exact ⟨by simpa using h.1, by simpa using h.2.1, by simpa using h.2.2.1,
      h.2.2.2.2.2.1⟩
  · have h := (C8_metadata_persist
      { enabled := true, cache_dir := "bad"
        cache_path := metaSnapshotPath "bad", cache_dirs := ["bad", "worse"] }
      { version := 1, schema_version := 1, cache_key := "k"
        manifest_hash := "", manifest := [], sessions := [] }
      (fun _ => false) (fun _ => none) rfl).2 (by decide)
    exact ⟨h.1, h.2.1,
      (h.2.2 { version := 1, schema_version := 1, cache_key := "k"
               manifest_hash := "", manifest := [], sessions := [] }
        (fun _ => false) (fun _ => none)).1⟩

/-- C5 (amended): for a record `R` stored for file `F` on an enabled
per-file cache (store, then a successful persist, then load into a fresh
enabled cache), a later `lookup(provider, F)` returns `R` iff `F`'s
current stat fingerprint equals the one captured at store time, and
returns `null` on any mismatch or when `F` cannot be statted — provided
`R` survives the serialization round-trip (which every record with
nonempty message roles and part kinds does; without that proviso `lookup`
returns the round-tripped record instead of `R`). -/
theorem C5_lookup_fingerprint (provider path dir2 : String)
    (R : SessionRecord) (fp : Int × Int) (c : DiskSessionCache) (fs0 : Fs)
    (hen : c.enabled = true) (hent : c.entries = [])
    (hfs : fs0 path = some fp)
    (hrt : deserialize_session_record (serialize_session_record R) = R)
    (fs1 : Fs) :
    (DiskSessionCache.load { enabled := true, cache_dir := dir2, entries := [] }
        ((c.store fs0 provider path R).persist true).2).lookup fs1 provider
        path
      = (if fs1 path = some fp then some R else none) := by
  have hstore : (c.store fs0 provider path R) =
      { c with entries :=
          [(entry_key provider path,
            { provider := provider, source_path := path
              mtime_ns := fp.1, size := fp.2
              session := serialize_session_record R })] } := by
    simp [DiskSessionCache.store, hen, path_fingerprint, hfs, hent, listUpsert]
  rw [hstore]
  simp only [DiskSessionCache.persist, hen, DiskSessionCache.persist_payload,
    DiskSessionCache.load, DiskSessionCache.lookup, path_fingerprint]
  cases hq : fs1 path with
  | none => simp
  | some q =>
    simp only [List.map_cons, List.map_nil, List.foldl_cons, List.foldl_nil,
      listUpsert, List.any_nil, Bool.false_eq_true, if_false, List.nil_append]
    by_cases hqfp : q = fp
    · subst hqfp
      simp [List.lookup, hrt]
    · have hne : ((fp.1 : Int), (fp.2 : Int)) ≠ q := by
        intro hcontra
        exact hqfp (by rw [← hcontra])
      simp [List.lookup, hne, hqfp]

/-- C5 counterexample: a record whose message role is the empty string is
stored, persisted and re-loaded; with an unchanged fingerprint, `lookup`
returns a record (the deserialized one, whose role became `"event"`) that
is not `R`, so "lookup returns R iff the fingerprint is unchanged" fails
as universally stated. -/
theorem C5_counterexample :
    (let R0 : SessionRecord :=
      { provider := "p", session_id := "s", source_path := "/a"
        messages := [{ role := "", content := "x" }] }
     let fs : Fs := fun q => if q = "/a" then some (1, 2) else none
     let c0 : DiskSessionCache :=
      { enabled := true, cache_dir := "d", entries := [] }
     let looked :=
      (DiskSessionCache.load { enabled := true, cache_dir := "d", entries := [] }
        ((c0.store fs "p" "/a" R0).persist true).2).lookup fs "p" "/a"
     fs "/a" = some (1, 2) ∧ looked.isSome = true ∧ looked ≠ some R0) := by
  decide

/-- C5 witness: a round-trippable record is returned by `lookup` while the
fingerprint matches and missed after the file changes. -/
theorem C5_witness :
    ((DiskSessionCache.load { enabled := true, cache_dir := "d", entries := [] }
        ((DiskSessionCache.store
            { enabled := true, cache_dir := "d", entries := [] }
            (fun q => if q = "/a" then some (1, 2) else none) "p" "/a"
            { provider := "p", session_id := "s", source_path := "/a"
              messages := [{ role := "user", content := "hi"
                             created_at := some 5 }] }).persist true).2).lookup
        (fun q => if q = "/a" then some (1, 2) else none) "p" "/a"
      = some { provider := "p", session_id := "s", source_path := "/a"
               messages := [{ role := "user", content := "hi"
                              created_at := some 5 }] }) ∧
    ((DiskSessionCache.load { enabled := true, cache_dir := "d", entries := [] }
        ((DiskSessionCache.store
            { enabled := true, cache_dir := "d", entries := [] }
            (fun q => if q = "/a" then some (1, 2) else none) "p" "/a"
            { provider := "p", session_id := "s", source_path := "/a"
              messages := [{ role := "user", content := "hi"
                             created_at := some 5 }] }).persist true).2).lookup
        (fun _ => some (9, 9)) "p" "/a"
      = none) := by
  constructor
  · rw [C5_lookup_fingerprint "p" "/a" "d" _ (1, 2) _
      (fun q => if q = "/a" then some (1, 2) else none) rfl rfl (by decide)
      (by decide) (fun q => if q = "/a" then some (1, 2) else none)]
    decide
  · rw [C5_lookup_fingerprint "p" "/a" "d" _ (1, 2) _
      (fun q => if q = "/a" then some (1, 2) else none) rfl rfl (by decide)
      (by decide) (fun _ => some (9, 9))]
    decide

theorem chunks_join {α : Type} (S : Nat) (hS : 1 ≤ S) :
    ∀ (n : Nat) (l : List α), l.length ≤ n * S →
      ((List.range n).map (fun k => (l.drop (k * S)).take S)).flatten = l := by
  intro n
  induction n with
  | zero =>
    intro l h
    simp only [Nat.zero_mul, Nat.le_zero, List.length_eq_zero] at h
    simp [h]
  | succ n ih =>
    intro l h
    rw [List.range_succ_eq_map]
    simp only [List.map_cons, List.map_map, List.flatten_cons, Nat.zero_mul,
      List.drop_zero]
    have hfun : ((fun k => (l.drop (k * S)).take S) ∘ (· + 1))
        = (fun k => (((l.drop S).drop (k * S)).take S)) := by
      funext k
      have hmul : (k + 1) * S = S + k * S := by ring
      simp only [Function.comp_apply, hmul, List.drop_drop]
    rw [hfun]
    have hlen : (l.drop S).length ≤ n * S := by
      have hmul : (n + 1) * S = n * S + S := by ring
      rw [hmul] at h
      simp only [List.length_drop]
      omega
    rw [ih (l.drop S) hlen, List.take_append_drop]

theorem le_ceil_mul (t S : Nat) (hS : 1 ≤ S) :
    t ≤ ((t + S - 1) / S) * S := by
  rw [Nat.mul_comm]
  have hd := Nat.div_add_mod (t + S - 1) S
  have hm : (t + S - 1) % S < S := Nat.mod_lt _ (by omega)
  omega

/-- C6: pagination of `list_sessions`.  With a normalized query of
positive page size: an empty filtered result yields an empty items list,
`total_pages = 0` and `page = 1`; otherwise `total_pages` is the ceiling
of `total / page_size`, the effective page is
`min(requested_page, total_pages)`, the items are the corresponding slice
of the sorted list, `has_next`/`has_previous` hold exactly off the last
and first effective page, and the slices for pages `1..total_pages`
partition the sorted list without overlap (their concatenation is the
sorted list). -/
theorem C6_pagination (sessions : List SessionRecord) (q : SessionQuery)
    (mps : Option Nat) (nq : SessionQuery) (hnq : nq = q.normalized mps)
    (ordered : List SessionRecord)
    (hord : ordered = sort_sessions (apply_filters sessions nq) nq.order)
    (hS : 1 ≤ nq.page_size) :
    (ordered.length = 0 →
      (list_sessions_snapshot sessions q mps).items = [] ∧
      (list_sessions_snapshot sessions q mps).total_pages = 0 ∧
      (list_sessions_snapshot sessions q mps).page = 1) ∧
    (0 < ordered.length →
      (list_sessions_snapshot sessions q mps).total = ordered.length ∧
      (list_sessions_snapshot sessions q mps).total_pages
        = (ordered.length + nq.page_size - 1) / nq.page_size ∧
      (list_sessions_snapshot sessions q mps).page
        = min nq.page (list_sessions_snapshot sessions q mps).total_pages ∧
      (list_sessions_snapshot sessions q mps).items
        = (ordered.drop
            (((list_sessions_snapshot sessions q mps).page - 1)
              * nq.page_size)).take nq.page_size ∧
      ((list_sessions_snapshot sessions q mps).has_next = true ↔
        (list_sessions_snapshot sessions q mps).page
          < (list_sessions_snapshot sessions q mps).total_pages) ∧
      ((list_sessions_snapshot sessions q mps).has_previous = true ↔
        1 < (list_sessions_snapshot sessions q mps).page) ∧
      ((List.range (list_sessions_snapshot sessions q mps).total_pages).map
         (fun k => (ordered.drop (k * nq.page_size)).take nq.page_size)).flatten
        = ordered) := by
  subst hnq
  subst hord
  by_cases hzero :
      (sort_sessions (apply_filters sessions (q.normalized mps))
        (q.normalized mps).order).length = 0
  · constructor
    · intro _
      simp only [list_sessions_snapshot]
      rw [if_pos hzero]
      exact ⟨rfl, rfl, rfl⟩
    · intro hpos
      omega
  · constructor
    · intro hcontra
      exact absurd hcontra hzero
    · intro _
      simp only [list_sessions_snapshot]
      rw [if_neg hzero]
      refine ⟨rfl, rfl, rfl, rfl, decide_eq_true_iff, decide_eq_true_iff, ?_⟩
      exact chunks_join (q.normalized mps).page_size hS _ _
        (le_ceil_mul _ _ hS)

/-- C6 witness: pagination facts instantiated at three records with
`page=2, page_size=2`; the hypotheses of the pagination theorem are
discharged at this concrete input. -/
theorem C6_witness :
    ((sort_sessions (apply_filters c6sessions (c6q.normalized none))
        (c6q.normalized none).order).length = 0 →
      (list_sessions_snapshot c6sessions c6q none).items = [] ∧
      (list_sessions_snapshot c6sessions c6q none).total_pages = 0 ∧
      (list_sessions_snapshot c6sessions c6q none).page = 1) ∧
    (0 < (sort_sessions (apply_filters c6sessions (c6q.normalized none))
        (c6q.normalized none).order).length →
      (list_sessions_snapshot c6sessions c6q none).total
        = (sort_sessions (apply_filters c6sessions (c6q.normalized none))
            (c6q.normalized none).order).length ∧
      (list_sessions_snapshot c6sessions c6q none).total_pages
        = ((sort_sessions (apply_filters c6sessions (c6q.normalized none))
              (c6q.normalized none).order).length
            + (c6q.normalized none).page_size - 1)
          / (c6q.normalized none).page_size ∧
      (list_sessions_snapshot c6sessions c6q none).page
        = min (c6q.normalized none).page
            (list_sessions_snapshot c6sessions c6q none).total_pages ∧
      (list_sessions_snapshot c6sessions c6q none).items
        = ((sort_sessions (apply_filters c6sessions (c6q.normalized none))
              (c6q.normalized none).order).drop
            (((list_sessions_snapshot c6sessions c6q none).page - 1)
              * (c6q.normalized none).page_size)).take
            (c6q.normalized none).page_size ∧
      ((list_sessions_snapshot c6sessions c6q none).has_next = true ↔
        (list_sessions_snapshot c6sessions c6q none).page
          < (list_sessions_snapshot c6sessions c6q none).total_pages) ∧
      ((list_sessions_snapshot c6sessions c6q none).has_previous = true ↔
        1 < (list_sessions_snapshot c6sessions c6q none).page) ∧
      ((List.range
          (list_sessions_snapshot c6sessions c6q none).total_pages).map
         (fun k =>
           ((sort_sessions (apply_filters c6sessions (c6q.normalized none))
               (c6q.normalized none).order).drop
             (k * (c6q.normalized none).page_size)).take
             (c6q.normalized none).page_size)).flatten
        = sort_sessions (apply_filters c6sessions (c6q.normalized none))
            (c6q.normalized none).order) :=
  C6_pagination c6sessions c6q none (c6q.normalized none) rfl
    (sort_sessions (apply_filters c6sessions (c6q.normalized none))
      (c6q.normalized none).order) rfl (by decide)

/-! ### Frame lemmas for the builder operations (used for C4) -/

theorem merge_diagnostics_frame (b : SessionBuilder)
    (d : NormalizationDiagnostics) :
    (b.merge_diagnostics d).msgs = b.msgs ∧
    (b.merge_diagnostics d).msg_keys = b.msg_keys ∧
    (b.merge_diagnostics d).norm_msgs = b.norm_msgs ∧
    (b.merge_diagnostics d).norm_keys = b.norm_keys ∧
    (b.merge_diagnostics d).model = b.model ∧
    (b.merge_diagnostics d).started_at = b.started_at ∧
    (b.merge_diagnostics d).updated_at = b.updated_at :=
  ⟨rfl, rfl, rfl, rfl, rfl, rfl, rfl⟩

